import Mathlib

/-!
Verification of the cross-domain token-authorization core of Hitachi/oss-assets:
the RFC 7662 introspection admission gate (introspection-sidecar/app.py), the
two-hop token-exchange broker (token-broker-sidecar/app.py), and the PKCE
authorization-code flow (03-oauth2.1/get_token.py).  The Python handlers are
embedded shallowly: outbound HTTP calls become oracle inputs, machine strings
become Lean strings, JSON bodies become an inductive value type, and each
handler becomes a total function from its inputs to the produced HTTP response
together with a record of the outbound requests it issued.
-/

set_option maxRecDepth 20000

namespace OssAuthz

/-! ## Python string primitives

Faithful models of the CPython string operations the handlers use.  Headers in
this code path are ASCII, so `str.lower` is modelled on the ASCII range (a
non-ASCII letter never lowers to an ASCII one, so the Bearer comparison is
unaffected), and `str.encode` on the ASCII strings involved is the list of
code points. -/

/-- Model of `str.lower` on one character (ASCII range). -/
def lowerChar (c : Char) : Char :=
  if 65 ≤ c.toNat ∧ c.toNat ≤ 90 then Char.ofNat (c.toNat + 32) else c

/-- Model of `str.lower`. -/
def pyLower (s : String) : String := ⟨s.data.map lowerChar⟩

/-- The character class stripped by `str.strip()` (ASCII whitespace). -/
def isPySpace (c : Char) : Bool :=
  c == ' ' || c == '\t' || c == '\n' || c == '\r' || c == '\x0b' || c == '\x0c'

/-- Model of `str.strip()`. -/
def pyStrip (s : String) : String :=
  ⟨((s.data.dropWhile isPySpace).reverse.dropWhile isPySpace).reverse⟩

/-- Model of `s.split(" ", 1)[1]`: everything after the first space.  The
handlers only evaluate this after checking that the string has a space. -/
def afterFirstSpace (s : String) : String :=
  ⟨(s.data.dropWhile (fun c => c != ' ')).drop 1⟩

/-- Whether the first list is an initial segment of the second
(model of `str.startswith` on the underlying characters). -/
def listLeadsWith : List Char → List Char → Bool
  | [], _ => true
  | _ :: _, [] => false
  | a :: as, b :: bs => a == b && listLeadsWith as bs

/-- Whether the first list occurs contiguously anywhere inside the second. -/
def listOccurs (needle : List Char) : List Char → Bool
  | [] => listLeadsWith needle []
  | b :: bs => listLeadsWith needle (b :: bs) || listOccurs needle bs

/-- The shared header test of both sidecars:
`auth.lower().startswith("bearer ")`. -/
def bearerOk (auth : String) : Bool :=
  listLeadsWith "bearer ".data (pyLower auth).data

/-- A nonempty string consisting of whitespace characters only. -/
def wsOnly (s : String) : Bool :=
  !s.data.isEmpty && s.data.all isPySpace

/-! ## JSON values

The subset of JSON the handlers exchange: `resp.json()` either raises (modelled
as `Option.none` at the call sites) or yields such a value.  Numbers are
modelled as integers, which covers every field the handlers read. -/

inductive Json where
  | null : Json
  | bool (b : Bool) : Json
  | num (n : Int) : Json
  | str (s : String) : Json
  | arr (xs : List Json) : Json
  | obj (kvs : List (String × Json)) : Json

/-- Python truthiness (`bool(x)`) of a JSON value. -/
def Json.truthy : Json → Bool
  | .null => false
  | .bool b => b
  | .num n => n != 0
  | .str s => s != ""
  | .arr xs => !xs.isEmpty
  | .obj kvs => !kvs.isEmpty

/-- Model of `dict.get(k)` on a parsed JSON object (absent key gives `None`). -/
def jGet (kvs : List (String × Json)) (k : String) : Json :=
  match kvs.find? (fun kv => kv.1 == k) with
  | some kv => kv.2
  | none => .null

/-- Model of `dict.get(k, d)` on a parsed JSON object. -/
def jGetD (kvs : List (String × Json)) (k : String) (d : Json) : Json :=
  match kvs.find? (fun kv => kv.1 == k) with
  | some kv => kv.2
  | none => d

/-- Python `x or y`. -/
def pyOr (a b : Json) : Json := if a.truthy then a else b

/-- Model of Python `repr()` on a JSON value, following the CPython repr shape
(single-quoted strings; quote escaping inside strings is not modelled, and no
handler under verification feeds such a value to it). -/
def pyRepr : Json → String
  | .null => "None"
  | .bool true => "True"
  | .bool false => "False"
  | .num n => toString n
  | .str s => "\x27" ++ s ++ "\x27"
  | .arr xs => "[" ++ String.intercalate ", " (xs.attach.map (fun x => pyRepr x.1)) ++ "]"
  | .obj kvs =>
      "\x7b" ++
      String.intercalate ", "
        (kvs.attach.map (fun kv => "\x27" ++ kv.1.1 ++ "\x27: " ++ pyRepr kv.1.2)) ++
      "\x7d"
  decreasing_by
  · have := List.sizeOf_lt_of_mem x.2; simp_wf; omega
  · have := List.sizeOf_lt_of_mem kv.2
    rcases kv with ⟨⟨k, v⟩, hm⟩
    simp_wf; simp at this; omega

/-- Model of Python `str()` on a JSON value, as used by `str(...)` and by
f-string interpolation: identical to `repr` except on top-level strings,
which print verbatim.  Scalars are spelled out so that this function reduces
without going through the recursive `pyRepr`. -/
def pyStr : Json → String
  | .null => "None"
  | .bool true => "True"
  | .bool false => "False"
  | .num n => toString n
  | .str s => s
  | .arr xs => pyRepr (.arr xs)
  | .obj kvs => pyRepr (.obj kvs)

/-! ## Base64 (RFC 4648)

`base64.b64encode` and `base64.urlsafe_b64encode` differ only in the alphabet
entries 62 and 63.  The encoders below work on byte values (naturals below
256) and produce the padded character stream; `rstripEq` models the
`.rstrip('=')` the PKCE code applies. -/

def stdAlpha : List Char :=
  "ABCDEFGHIJKLMNOPQRSTUVWXYZabcdefghijklmnopqrstuvwxyz0123456789+/".data

def urlAlpha : List Char :=
  "ABCDEFGHIJKLMNOPQRSTUVWXYZabcdefghijklmnopqrstuvwxyz0123456789-_".data

/-- Character for a six-bit group. -/
def sextetChar (alpha : List Char) (n : Nat) : Char := alpha.getD n '?'

/-- Padded base64 encoding of a byte list over a given alphabet. -/
def b64encodeCore (alpha : List Char) : List Nat → List Char
  | b0 :: b1 :: b2 :: rest =>
      sextetChar alpha (b0 / 4) ::
      sextetChar alpha (b0 % 4 * 16 + b1 / 16) ::
      sextetChar alpha (b1 % 16 * 4 + b2 / 64) ::
      sextetChar alpha (b2 % 64) ::
      b64encodeCore alpha rest
  | [b0, b1] =>
      [sextetChar alpha (b0 / 4), sextetChar alpha (b0 % 4 * 16 + b1 / 16),
       sextetChar alpha (b1 % 16 * 4), '=']
  | [b0] =>
      [sextetChar alpha (b0 / 4), sextetChar alpha (b0 % 4 * 16), '=', '=']
  | [] => []

/-- The same encoding without emitting padding characters: the reference
meaning of an unpadded base64url string. -/
def b64NoPadCore (alpha : List Char) : List Nat → List Char
  | b0 :: b1 :: b2 :: rest =>
      sextetChar alpha (b0 / 4) ::
      sextetChar alpha (b0 % 4 * 16 + b1 / 16) ::
      sextetChar alpha (b1 % 16 * 4 + b2 / 64) ::
      sextetChar alpha (b2 % 64) ::
      b64NoPadCore alpha rest
  | [b0, b1] =>
      [sextetChar alpha (b0 / 4), sextetChar alpha (b0 % 4 * 16 + b1 / 16),
       sextetChar alpha (b1 % 16 * 4)]
  | [b0] =>
      [sextetChar alpha (b0 / 4), sextetChar alpha (b0 % 4 * 16)]
  | [] => []

/-- Model of `.rstrip('=')`. -/
def rstripEq (s : String) : String :=
  ⟨(s.data.reverse.dropWhile (fun c => c == '=')).reverse⟩

/-- Byte values of an ASCII string (`str.encode("utf-8")` restricted to the
ASCII strings this code produces). -/
def utf8Bytes (s : String) : List Nat := s.data.map Char.toNat

/-- Model of the `_basic_auth_header` helper shared by both sidecars. -/
def basicAuthHeader (cid secret : String) : String :=
  "Basic " ++ String.mk (b64encodeCore stdAlpha (utf8Bytes (cid ++ ":" ++ secret)))

/-! ## SHA-256 (FIPS 180-4)

Words are naturals kept below 2^32 by explicit reduction. -/

def rotr32 (n x : Nat) : Nat := ((x >>> n) ||| (x <<< (32 - n))) % 4294967296

def chF (x y z : Nat) : Nat := (x &&& y) ^^^ ((x ^^^ 4294967295) &&& z)

def majF (x y z : Nat) : Nat := (x &&& y) ^^^ (x &&& z) ^^^ (y &&& z)

def bigSigma0 (x : Nat) : Nat := rotr32 2 x ^^^ rotr32 13 x ^^^ rotr32 22 x

def bigSigma1 (x : Nat) : Nat := rotr32 6 x ^^^ rotr32 11 x ^^^ rotr32 25 x

def smallSigma0 (x : Nat) : Nat := rotr32 7 x ^^^ rotr32 18 x ^^^ (x >>> 3)

def smallSigma1 (x : Nat) : Nat := rotr32 17 x ^^^ rotr32 19 x ^^^ (x >>> 10)

/-- The 64 round constants of FIPS 180-4, in decimal. -/
def sha256K : List Nat :=
  [1116352408, 1899447441, 3049323471, 3921009573, 961987163,
   1508970993, 2453635748, 2870763221, 3624381080, 310598401,
   607225278, 1426881987, 1925078388, 2162078206, 2614888103,
   3248222580, 3835390401, 4022224774, 264347078, 604807628,
   770255983, 1249150122, 1555081692, 1996064986, 2554220882,
   2821834349, 2952996808, 3210313671, 3336571891, 3584528711,
   113926993, 338241895, 666307205, 773529912, 1294757372,
   1396182291, 1695183700, 1986661051, 2177026350, 2456956037,
   2730485921, 2820302411, 3259730800, 3345764771, 3516065817,
   3600352804, 4094571909, 275423344, 430227734, 506948616,
   659060556, 883997877, 958139571, 1322822218, 1537002063,
   1747873779, 1955562222, 2024104815, 2227730452, 2361852424,
   2428436474, 2756734187, 3204031479, 3329325298]

/-- The eight initial hash words of FIPS 180-4, in decimal. -/
def sha256H0 : List Nat :=
  [1779033703, 3144134277, 1013904242, 2773480762, 1359893119,
   2600822924, 528734635, 1541459225]

/-- Big-endian eight-byte encoding of the message bit length. -/
def lenBE8 (n : Nat) : List Nat :=
  [n / 72057594037927936 % 256, n / 281474976710656 % 256, n / 1099511627776 % 256,
   n / 4294967296 % 256, n / 16777216 % 256, n / 65536 % 256, n / 256 % 256, n % 256]

/-- SHA-256 message padding. -/
def shaPad (msg : List Nat) : List Nat :=
  msg ++ 128 :: List.replicate ((119 - msg.length % 64) % 64) 0 ++ lenBE8 (msg.length * 8)

/-- Fuelled splitting of a byte list into 64-byte blocks: each step consumes
at least one byte, so fuel equal to the length never runs out. -/
def chunksGo : Nat → List Nat → List (List Nat)
  | _, [] => []
  | 0, _ :: _ => []
  | fuel + 1, b :: rest => ((b :: rest).take 64) :: chunksGo fuel ((b :: rest).drop 64)

/-- Split a byte list into 64-byte blocks. -/
def chunks64 (l : List Nat) : List (List Nat) := chunksGo l.length l

/-- Big-endian word `i` of a 64-byte block. -/
def beWord (block : List Nat) (i : Nat) : Nat :=
  block.getD (4 * i) 0 * 16777216 + block.getD (4 * i + 1) 0 * 65536 +
  block.getD (4 * i + 2) 0 * 256 + block.getD (4 * i + 3) 0

def wordsOfBlock (block : List Nat) : List Nat :=
  (List.range 16).map (beWord block)

/-- One extension step of the message schedule. -/
def scheduleStep (w : List Nat) (_i : Nat) : List Nat :=
  w ++ [(smallSigma1 (w.getD (w.length - 2) 0) + w.getD (w.length - 7) 0 +
         smallSigma0 (w.getD (w.length - 15) 0) + w.getD (w.length - 16) 0) % 4294967296]

/-- The 64-word message schedule of one block. -/
def schedule (w16 : List Nat) : List Nat := (List.range 48).foldl scheduleStep w16

structure ShaState where
  a : Nat
  b : Nat
  c : Nat
  d : Nat
  e : Nat
  f : Nat
  g : Nat
  h : Nat

/-- One compression round. -/
def compressRound (st : ShaState) (kw : Nat × Nat) : ShaState :=
  let t1 := (st.h + bigSigma1 st.e + chF st.e st.f st.g + kw.1 + kw.2) % 4294967296
  let t2 := (bigSigma0 st.a + majF st.a st.b st.c) % 4294967296
  ⟨(t1 + t2) % 4294967296, st.a, st.b, st.c, (st.d + t1) % 4294967296, st.e, st.f, st.g⟩

/-- Compression of one 64-byte block into the running hash value. -/
def compress (hv : List Nat) (block : List Nat) : List Nat :=
  let w := schedule (wordsOfBlock block)
  let st0 : ShaState :=
    ⟨hv.getD 0 0, hv.getD 1 0, hv.getD 2 0, hv.getD 3 0,
     hv.getD 4 0, hv.getD 5 0, hv.getD 6 0, hv.getD 7 0⟩
  let st := (sha256K.zip w).foldl compressRound st0
  [(hv.getD 0 0 + st.a) % 4294967296, (hv.getD 1 0 + st.b) % 4294967296,
   (hv.getD 2 0 + st.c) % 4294967296, (hv.getD 3 0 + st.d) % 4294967296,
   (hv.getD 4 0 + st.e) % 4294967296, (hv.getD 5 0 + st.f) % 4294967296,
   (hv.getD 6 0 + st.g) % 4294967296, (hv.getD 7 0 + st.h) % 4294967296]

/-- Big-endian bytes of one hash word. -/
def wordBE4 (w : Nat) : List Nat :=
  [w / 16777216 % 256, w / 65536 % 256, w / 256 % 256, w % 256]

/-- SHA-256 digest (32 bytes) of a byte message
(`hashlib.sha256(...).digest()`). -/
def sha256 (msg : List Nat) : List Nat :=
  ((chunks64 (shaPad msg)).foldl compress sha256H0).flatMap wordBE4

/-! ## HTTP model

A handler produces a status, a body string and the headers it explicitly sets
(framework-added headers such as content type are outside the handlers and not
modelled).  A FastAPI handler that raises an uncaught exception does not
produce a response itself; the framework turns that into an internal 500 —
kept apart as `HttpOutcome.unhandled`. -/

structure HttpResponse where
  status : Nat
  body : String
  headers : List (String × String)
deriving DecidableEq

inductive HttpOutcome where
  | ok (resp : HttpResponse) : HttpOutcome
  | unhandled : HttpOutcome
deriving DecidableEq

/-! ## Introspection admission gate (introspection-sidecar/app.py, `check`)

The single outbound introspection POST is an oracle input: either the
`client.post` call raised (transport error or timeout, caught by the
`except`), or it returned a status code and a body that `resp.json()` either
parses to a `Json` value or fails on (`none`). -/

structure GateConfig where
  introspectUrl : String
  clientId : String
  clientSecret : String
deriving DecidableEq

/-- The gate configuration check `KC_INTROSPECT_URL and KC_CLIENT_ID and
KC_CLIENT_SECRET` (environment variables default to the empty string, so a
missing value is the empty string). -/
def gateConfigured (cfg : GateConfig) : Bool :=
  cfg.introspectUrl != "" && cfg.clientId != "" && cfg.clientSecret != ""

inductive IntroResult where
  | transportError : IntroResult
  | reply (status : Nat) (body : Option Json) : IntroResult

/-- The outbound introspection request the gate issues. -/
structure IntroRequest where
  headers : List (String × String)
  form : List (String × String)
deriving DecidableEq

structure GateRun where
  response : HttpOutcome
  introRequest : Option IntroRequest
deriving DecidableEq

/-- ALLOW branch of the gate (source lines 60-69).  The `or` chains follow
Python truthiness; the produced header values must be strings for the
`Response` constructor — a non-string value raises, which the source does not
catch. -/
def gateAllow (kvs : List (String × Json)) : HttpOutcome :=
  let subject := pyOr (pyOr (jGet kvs "sub") (jGet kvs "username")) (Json.str "")
  let scope := pyOr (jGet kvs "scope") (Json.str "")
  let expStr := pyStr (pyOr (jGet kvs "exp") (Json.str ""))
  match subject, scope with
  | .str s, .str sc =>
      .ok ⟨200, "", [("X-Subject", s), ("X-Scope", sc), ("X-Token-Exp", expStr)]⟩
  | _, _ => .unhandled

/-- The gate handler `check`.  `auth` is `req.headers.get("authorization", "")`
(a missing header is the empty string). -/
def check (auth : String) (cfg : GateConfig) (intro : IntroResult) : GateRun :=
  if !bearerOk auth then ⟨.ok ⟨401, "", []⟩, none⟩
  else
    let token := pyStrip (afterFirstSpace auth)
    if !gateConfigured cfg then ⟨.ok ⟨500, "misconfigured", []⟩, none⟩
    else
      let ireq : IntroRequest :=
        ⟨[("Authorization", basicAuthHeader cfg.clientId cfg.clientSecret),
          ("Content-Type", "application/x-www-form-urlencoded")],
         [("token", token), ("token_type_hint", "access_token")]⟩
      match intro with
      | .transportError => ⟨.ok ⟨401, "", []⟩, some ireq⟩
      | .reply st body =>
        if st ≥ 500 then ⟨.ok ⟨401, "", []⟩, some ireq⟩
        else
          match body with
          | none => ⟨.ok ⟨401, "", []⟩, some ireq⟩
          | some (Json.obj kvs) =>
            if !(jGetD kvs "active" (Json.bool false)).truthy then
              ⟨.ok ⟨401, "", []⟩, some ireq⟩
            else ⟨gateAllow kvs, some ireq⟩
          | some _ => ⟨.unhandled, some ireq⟩

/-! ## Token-exchange broker (token-broker-sidecar/app.py, `broker`)

Both outbound token-endpoint POSTs are oracle inputs of the same shape as the
gate introspection call.  Every step of the broker body runs inside one `try`,
so a raised `.json()` or attribute access is caught and collapses to DENY. -/

structure BrokerConfig where
  aTokenUrl : String
  aClientId : String
  aClientSecret : String
  aScope : String
  bTokenUrl : String
  bClientId : String
  bClientSecret : String
  bClientAuth : String
deriving DecidableEq

/-- The broker configuration check (six required values; `KC_A_SCOPE` and
`KC_B_CLIENT_AUTH` are optional). -/
def brokerConfigured (cfg : BrokerConfig) : Bool :=
  cfg.aTokenUrl != "" && cfg.aClientId != "" && cfg.aClientSecret != "" &&
  cfg.bTokenUrl != "" && cfg.bClientId != "" && cfg.bClientSecret != ""

inductive HopResult where
  | transportError : HopResult
  | reply (status : Nat) (body : Option Json) : HopResult

/-- One outbound token-endpoint POST issued by the broker. -/
structure HopRequest where
  url : String
  headers : List (String × String)
  form : List (String × Json)

structure BrokerRun where
  response : HttpResponse
  hopARequest : Option HopRequest
  hopBRequest : Option HopRequest

/-- The `_client_auth_fields` helper: form fields for `client_secret_post`,
nothing otherwise. -/
def clientAuthFields (clientId clientSecret method : String) : List (String × Json) :=
  if method == "client_secret_post" then
    [("client_id", Json.str clientId), ("client_secret", Json.str clientSecret)]
  else []

/-- Whether a hop reply body is a JSON object carrying a truthy
`access_token` (the `body.get("access_token", "")` / `if not ...` test; a
non-object body makes `.get` raise, which the `try` collapses to DENY). -/
def bodyHasToken : Option Json → Bool
  | some (Json.obj kvs) => (jGetD kvs "access_token" (Json.str "")).truthy
  | _ => false

/-- The Hop-A request `login_flow` issues: `data_a` (with the optional
`scope` entry appended by the dict assignment) under HTTP Basic
authentication as the domain-A client. -/
def hopARequestOf (cfg : BrokerConfig) (incoming : String) : HopRequest :=
  ⟨cfg.aTokenUrl,
   [("Authorization", basicAuthHeader cfg.aClientId cfg.aClientSecret),
    ("Content-Type", "application/x-www-form-urlencoded")],
   [("grant_type", Json.str "urn:ietf:params:oauth:grant-type:token-exchange"),
    ("subject_token", Json.str incoming),
    ("subject_token_type", Json.str "urn:ietf:params:oauth:token-type:access_token")] ++
   (if cfg.aScope != "" then [("scope", Json.str cfg.aScope)] else [])⟩

/-- The Hop-B request: `data_b` carrying the Hop-A token as `assertion`,
client-authenticated per `KC_B_CLIENT_AUTH` — HTTP Basic when it equals
`client_secret_basic`, otherwise `_client_auth_fields` appended to the form
via `dict.update` and no Authorization header. -/
def hopBRequestOf (cfg : BrokerConfig) (assertion : Json) : HopRequest :=
  if cfg.bClientAuth == "client_secret_basic" then
    ⟨cfg.bTokenUrl,
     [("Authorization", basicAuthHeader cfg.bClientId cfg.bClientSecret),
      ("Content-Type", "application/x-www-form-urlencoded")],
     [("grant_type", Json.str "urn:ietf:params:oauth:grant-type:jwt-bearer"),
      ("assertion", assertion)]⟩
  else
    ⟨cfg.bTokenUrl,
     [("Content-Type", "application/x-www-form-urlencoded")],
     [("grant_type", Json.str "urn:ietf:params:oauth:grant-type:jwt-bearer"),
      ("assertion", assertion)] ++
     clientAuthFields cfg.bClientId cfg.bClientSecret "client_secret_post"⟩

/-- The broker handler.  `auth` is the inbound Authorization header value,
with a missing header the empty string. -/
def broker (auth : String) (cfg : BrokerConfig) (hopA hopB : HopResult) : BrokerRun :=
  if !bearerOk auth then ⟨⟨401, "", []⟩, none, none⟩
  else
    let incoming := pyStrip (afterFirstSpace auth)
    if !brokerConfigured cfg then ⟨⟨500, "misconfigured", []⟩, none, none⟩
    else
      let reqA : HopRequest := hopARequestOf cfg incoming
      match hopA with
      | .transportError => ⟨⟨401, "", []⟩, some reqA, none⟩
      | .reply stA bodyA =>
        if stA ≥ 500 then ⟨⟨401, "", []⟩, some reqA, none⟩
        else
          match bodyA with
          | none => ⟨⟨401, "", []⟩, some reqA, none⟩
          | some (Json.obj kvsA) =>
            let jwtForB := jGetD kvsA "access_token" (Json.str "")
            if !jwtForB.truthy then ⟨⟨401, "", []⟩, some reqA, none⟩
            else
              let reqB : HopRequest := hopBRequestOf cfg jwtForB
              match hopB with
              | .transportError => ⟨⟨401, "", []⟩, some reqA, some reqB⟩
              | .reply stB bodyB =>
                if stB ≥ 500 then ⟨⟨401, "", []⟩, some reqA, some reqB⟩
                else
                  match bodyB with
                  | none => ⟨⟨401, "", []⟩, some reqA, some reqB⟩
                  | some (Json.obj kvsB) =>
                    let finalTok := jGetD kvsB "access_token" (Json.str "")
                    if !finalTok.truthy then ⟨⟨401, "", []⟩, some reqA, some reqB⟩
                    else
                      ⟨⟨200, "",
                        [("Authorization", "Bearer " ++ pyStr finalTok),
                         ("Cache-Control", "no-store")]⟩,
                       some reqA, some reqB⟩
                  | some _ => ⟨⟨401, "", []⟩, some reqA, some reqB⟩
          | some _ => ⟨⟨401, "", []⟩, some reqA, none⟩

/-! ## Authorization-code flow (03-oauth2.1/get_token.py)

Only the parts the claims are about: the PKCE pair generation of `login_flow`
(a pure function of the 32 random bytes drawn from `secrets.token_bytes(32)`),
the authorization-URL query parameters, and the callback handler `do_GET`
together with the condition under which `login_flow` proceeds to the token
exchange. -/

/-- PKCE verifier:
`base64.urlsafe_b64encode(secrets.token_bytes(32)).decode().rstrip("=")`. -/
def pkceVerifier (bs : List Nat) : String :=
  rstripEq (String.mk (b64encodeCore urlAlpha bs))

/-- PKCE challenge: `base64.urlsafe_b64encode(
hashlib.sha256(code_verifier.encode("utf-8")).digest()).decode().rstrip("=")`. -/
def pkceChallenge (bs : List Nat) : String :=
  rstripEq (String.mk (b64encodeCore urlAlpha (sha256 (utf8Bytes (pkceVerifier bs)))))

/-- The `auth_params` dictionary of `login_flow`, as a function of the random
bytes behind the PKCE pair. -/
def authParamsFlow (bs : List Nat) : List (String × String) :=
  [("client_id", "mcp"),
   ("redirect_uri", "http://localhost:8888/callback"),
   ("response_type", "code"),
   ("scope", "hello"),
   ("state", "random_state"),
   ("code_challenge", pkceChallenge bs),
   ("code_challenge_method", "S256")]

/-- Break a query-string component at its first equality sign. -/
def breakAtEq : List Char → Option (List Char × List Char)
  | [] => none
  | c :: rest =>
    if c = '=' then some ([], rest)
    else (breakAtEq rest).map (fun p => (c :: p.1, p.2))

/-- Split a character list on the ampersand separator. -/
def splitOnAmp : List Char → List (List Char)
  | [] => [[]]
  | c :: rest =>
    if c = '&' then [] :: splitOnAmp rest
    else
      match splitOnAmp rest with
      | [] => [[c]]
      | p :: ps => (c :: p) :: ps

/-- Model of `urllib.parse.parse_qs` on the query strings reaching the
callback handler: split on the separator, keep `name=value` pairs with a
nonempty value (the default `keep_blank_values=False`), in order.  Percent
decoding is not modelled; the inputs exercised here contain no escapes. -/
def parseQS (q : String) : List (String × String) :=
  (splitOnAmp q.data).filterMap (fun part =>
    match breakAtEq part with
    | none => none
    | some (k, v) => if v.isEmpty then none else some (String.mk k, String.mk v))

/-- First value for a key, as in `query_params[k][0]`; presence of the key is
`(qsGet params k).isSome`, as in `k in query_params`. -/
def qsGet (params : List (String × String)) (k : String) : Option String :=
  (params.find? (fun kv => kv.1 == k)).map (fun kv => kv.2)

/-- Query component of `urlparse(path)`: what follows the first question
mark (the inputs exercised here carry no fragment). -/
def urlQuery (path : String) : String :=
  ⟨(path.data.dropWhile (fun c => c != '?')).drop 1⟩

/-- The module-level mutable state the callback handler writes
(`auth_code`). -/
structure FlowState where
  authCode : Option String
deriving DecidableEq

/-- The callback handler `CallbackHandler.do_GET`: reads `code` or `error`
from the query string, stores the code into the module state, and answers 200
or 400 (no response is sent when neither key is present).  The returned
`state` query value is read by nobody. -/
def doGET (st : FlowState) (path : String) : FlowState × Option Nat :=
  let params := parseQS (urlQuery path)
  match qsGet params "code" with
  | some code => (⟨some code⟩, some 200)
  | none =>
    match qsGet params "error" with
    | some _ => (st, some 400)
    | none => (st, none)

/-- After the wait loop, `login_flow` proceeds to the token exchange exactly
when `auth_code` is set (`if not auth_code: return False`); no comparison with
the `state` nonce happens anywhere. -/
def proceedsToExchange (st : FlowState) : Bool :=
  st.authCode.isSome

/-! ## Derived notions used by the statements -/

/-- Value of a form field, by key. -/
def formGet (form : List (String × Json)) (k : String) : Option Json :=
  (form.find? (fun kv => kv.1 == k)).map (fun kv => kv.2)

/-- Whether a string occurs contiguously anywhere in a response: in its body
or in any header name or value. -/
def respMentions (needle : String) (r : HttpResponse) : Bool :=
  listOccurs needle.data r.body.data ||
  r.headers.any (fun kv => listOccurs needle.data kv.1.data || listOccurs needle.data kv.2.data)

/-- The introspection outcomes the fail-closed design maps to DENY: transport
error, 5xx status, unparseable body, or an object body whose `active` entry is
absent or falsy. -/
def introDeniable (intro : IntroResult) : Prop :=
  intro = .transportError ∨
  ∃ st b, intro = .reply st b ∧
    (500 ≤ st ∨ b = none ∨
     ∃ kvs, b = some (Json.obj kvs) ∧ (jGetD kvs "active" (Json.bool false)).truthy = false)

/-- The Hop-B outcomes that must collapse to DENY: transport error, 5xx
status, or a body without a truthy `access_token` (unparseable and non-object
bodies included). -/
def hopBad (hop : HopResult) : Prop :=
  hop = .transportError ∨
  ∃ st b, hop = .reply st b ∧ (500 ≤ st ∨ bodyHasToken b = false)

/-- Padding suffix emitted by base64 for a given input length modulo three. -/
def padList : Nat → List Char
  | 1 => ['=', '=']
  | 2 => ['=']
  | _ => []

/-- Sample gate configuration used by concrete instances. -/
def gateCfg1 : GateConfig := ⟨"http://kc-a/introspect", "gateway", "gw-secret"⟩

/-- Sample broker configuration (Basic authentication toward domain B). -/
def brokerCfg1 : BrokerConfig :=
  ⟨"http://kc-a/token", "broker-a", "sec-a", "mcp-b",
   "http://kc-b/token", "broker-b", "sec-b", "client_secret_basic"⟩

/-- Sample broker configuration (post-style authentication toward domain B). -/
def brokerCfg2 : BrokerConfig :=
  ⟨"http://kc-a/token", "broker-a", "sec-a", "",
   "http://kc-b/token", "broker-b", "sec-b", "client_secret_post"⟩

/-! ## General helper lemmas -/

theorem listLeadsWith_app (l m : List Char) : listLeadsWith l (l ++ m) = true := by
  induction l with
  | nil => rfl
  | cons a as ih => simp [listLeadsWith, ih]

/-- A string whose lowercasing is `bearer ` passes the header test whatever
follows it. -/
theorem bearerOk_concat (pre rest : String)
    (hpre : pre.data.map lowerChar = "bearer ".data) :
    bearerOk (pre ++ rest) = true := by
  have hdata : (pyLower (pre ++ rest)).data = "bearer ".data ++ (rest.data.map lowerChar) := by
    simp [pyLower, String.data_append, hpre]
  rw [bearerOk, hdata, listLeadsWith_app]

/-- Once the header and configuration tests pass, the gate issues exactly one
introspection request, whatever the introspection outcome, carrying the
stripped token. -/
theorem gate_introRequest (auth : String) (cfg : GateConfig) (intro : IntroResult)
    (hb : bearerOk auth = true) (hc : gateConfigured cfg = true) :
    (check auth cfg intro).introRequest =
      some ⟨[("Authorization", basicAuthHeader cfg.clientId cfg.clientSecret),
             ("Content-Type", "application/x-www-form-urlencoded")],
            [("token", pyStrip (afterFirstSpace auth)),
             ("token_type_hint", "access_token")]⟩ := by
  rcases intro with _ | ⟨st, b⟩
  · simp [check, hb, hc]
  · by_cases h5 : 500 ≤ st
    · simp [check, hb, hc, h5]
    · rcases b with _ | j
      · simp [check, hb, hc, h5]
      · rcases j with _ | bb | n | s | xs | kvs <;>
          simp [check, hb, hc, h5] <;> split <;> simp

/-- Once the header and configuration tests pass, the broker issues the Hop-A
request with the stripped incoming token as subject, whatever the hop
outcomes. -/
theorem broker_hopARequest (auth : String) (cfg : BrokerConfig) (hopA hopB : HopResult)
    (hb : bearerOk auth = true) (hc : brokerConfigured cfg = true) :
    (broker auth cfg hopA hopB).hopARequest =
      some (hopARequestOf cfg (pyStrip (afterFirstSpace auth))) := by
  rcases hopA with _ | ⟨stA, bA⟩
  · simp [broker, hb, hc]
  · by_cases h5 : 500 ≤ stA
    · simp [broker, hb, hc, h5]
    · rcases bA with _ | j
      · simp [broker, hb, hc, h5]
      · rcases j with _ | bb | n | s | xs | kvsA <;> simp [broker, hb, hc, h5]
        by_cases ht : (jGetD kvsA "access_token" (Json.str "")).truthy
        · simp [ht]
          rcases hopB with _ | ⟨stB, bB⟩
          · simp
          · by_cases h5B : 500 ≤ stB
            · simp [h5B]
            · rcases bB with _ | j2
              · simp [h5B]
              · rcases j2 with _ | bb2 | n2 | s2 | xs2 | kvsB <;> simp [h5B] <;>
                  split <;> simp
        · simp [ht]

/-- Splitting `Bearer <ws>` at the first space leaves exactly the suffix. -/
theorem afterFirstSpace_bearer (ws : String) :
    afterFirstSpace ("Bearer " ++ ws) = String.mk ws.data := by
  have h : ("Bearer " ++ ws).data = 'B' :: 'e' :: 'a' :: 'r' :: 'e' :: 'r' :: ' ' :: ws.data := by
    rw [String.data_append]; rfl
  simp [afterFirstSpace, h, List.dropWhile]

/-- Stripping an all-whitespace string yields the empty string. -/
theorem pyStrip_ws (ws : String) (hws : ws.data.all isPySpace = true) :
    pyStrip (String.mk ws.data) = "" := by
  have h1 : ws.data.dropWhile isPySpace = [] := by
    rw [List.dropWhile_eq_nil_iff]
    intro c hc
    exact List.all_eq_true.mp hws c hc
  show String.mk (((ws.data.dropWhile isPySpace).reverse.dropWhile isPySpace).reverse) = ""
  rw [h1]
  rfl

/-! ## Base64 lemmas -/

theorem noPad_length (alpha : List Char) (bs : List Nat) :
    (b64NoPadCore alpha bs).length = (bs.length * 4 + 2) / 3 := by
  induction bs using b64NoPadCore.induct alpha with
  | case1 b0 b1 b2 rest ih => simp [b64NoPadCore, ih]; omega
  | case2 b0 b1 => simp [b64NoPadCore]
  | case3 b0 => simp [b64NoPadCore]
  | case4 => simp [b64NoPadCore]

theorem getD_mem {l : List Char} {n : Nat} (h : n < l.length) (d : Char) :
    l.getD n d ∈ l := by
  induction l generalizing n with
  | nil => simp at h
  | cons a t ih =>
    cases n with
    | zero => simp
    | succ m =>
      simp only [List.getD_cons_succ]
      exact List.mem_cons_of_mem a (ih (by simpa using h))

theorem sextetChar_mem (alpha : List Char) (n : Nat)
    (hlen : alpha.length = 64) (hn : n < 64) : sextetChar alpha n ∈ alpha :=
  getD_mem (by omega) _

/-- On byte inputs, every character of the unpadded encoding is drawn from
the 64-character alphabet. -/
theorem noPad_charset (alpha : List Char) (hlen : alpha.length = 64)
    (bs : List Nat) (hb : ∀ b ∈ bs, b < 256) :
    ∀ c ∈ b64NoPadCore alpha bs, c ∈ alpha := by
  induction bs using b64NoPadCore.induct alpha with
  | case1 b0 b1 b2 rest ih =>
    have h0 := hb b0 (by simp)
    have h1 := hb b1 (by simp)
    have h2 := hb b2 (by simp)
    intro c hc
    simp only [b64NoPadCore, List.mem_cons] at hc
    rcases hc with rfl | rfl | rfl | rfl | hc
    · exact sextetChar_mem _ _ hlen (by omega)
    · exact sextetChar_mem _ _ hlen (by omega)
    · exact sextetChar_mem _ _ hlen (by omega)
    · exact sextetChar_mem _ _ hlen (by omega)
    · exact ih (fun b hbm => hb b (by simp [hbm])) c hc
  | case2 b0 b1 =>
    have h0 := hb b0 (by simp)
    have h1 := hb b1 (by simp)
    intro c hc
    simp only [b64NoPadCore, List.mem_cons] at hc
    rcases hc with rfl | rfl | rfl | hc
    · exact sextetChar_mem _ _ hlen (by omega)
    · exact sextetChar_mem _ _ hlen (by omega)
    · exact sextetChar_mem _ _ hlen (by omega)
    · simp at hc
  | case3 b0 =>
    have h0 := hb b0 (by simp)
    intro c hc
    simp only [b64NoPadCore, List.mem_cons] at hc
    rcases hc with rfl | rfl | hc
    · exact sextetChar_mem _ _ hlen (by omega)
    · exact sextetChar_mem _ _ hlen (by omega)
    · simp at hc
  | case4 => intro c hc; simp [b64NoPadCore] at hc

/-- The padded encoding is the unpadded one followed by the padding suffix
determined by the input length modulo three. -/
theorem encode_eq_noPad_append_pad (alpha : List Char) (bs : List Nat) :
    b64encodeCore alpha bs = b64NoPadCore alpha bs ++ padList (bs.length % 3) := by
  induction bs using b64encodeCore.induct alpha with
  | case1 b0 b1 b2 rest ih =>
    simp [b64encodeCore, b64NoPadCore, ih]
    congr 1
    omega
  | case2 b0 b1 => simp [b64encodeCore, b64NoPadCore, padList]
  | case3 b0 => simp [b64encodeCore, b64NoPadCore, padList]
  | case4 => simp [b64encodeCore, b64NoPadCore, padList]

theorem padList_all_eq (k : Nat) : ∀ c ∈ padList k, c = '=' := by
  rcases k with _ | _ | _ | k3 <;> simp [padList]

theorem dropWhile_append_all {p : Char → Bool} (l1 l2 : List Char)
    (h : ∀ c ∈ l1, p c = true) : (l1 ++ l2).dropWhile p = l2.dropWhile p := by
  induction l1 with
  | nil => rfl
  | cons a t ih =>
    simp only [List.cons_append, List.dropWhile_cons, h a (by simp)]
    exact ih (fun c hc => h c (by simp [hc]))

theorem dropWhile_all_false {p : Char → Bool} (l : List Char)
    (h : ∀ c ∈ l, p c = false) : l.dropWhile p = l := by
  cases l with
  | nil => rfl
  | cons a t => simp [List.dropWhile_cons, h a (by simp)]

/-- Stripping the padding from the padded encoding of bytes gives exactly the
unpadded encoding: the source expression `b64encode(x).rstrip("=")` and the
specification phrase `unpadded base64 encoding` agree. -/
theorem rstrip_noPad (alpha : List Char) (hlen : alpha.length = 64)
    (hne : '=' ∉ alpha) (bs : List Nat) (hb : ∀ b ∈ bs, b < 256) :
    rstripEq (String.mk (b64encodeCore alpha bs)) = String.mk (b64NoPadCore alpha bs) := by
  show String.mk (((b64encodeCore alpha bs).reverse.dropWhile (fun c => c == '=')).reverse) = _
  rw [encode_eq_noPad_append_pad, List.reverse_append]
  rw [dropWhile_append_all _ _ (fun c hc => by
    have := padList_all_eq _ c (List.mem_reverse.mp hc)
    simp [this])]
  rw [dropWhile_all_false _ (fun c hc => by
    have hmem := noPad_charset alpha hlen bs hb c (List.mem_reverse.mp hc)
    have : c ≠ '=' := fun h => hne (h ▸ hmem)
    simp [this])]
  rw [List.reverse_reverse]

/-! ## SHA-256 output-shape lemmas -/

theorem compress_length (hv block : List Nat) : (compress hv block).length = 8 := by
  simp [compress]

theorem foldl_compress_length (blocks : List (List Nat)) (hv : List Nat)
    (h : hv.length = 8) : (blocks.foldl compress hv).length = 8 := by
  induction blocks generalizing hv with
  | nil => exact h
  | cons b bl ih => exact ih _ (compress_length _ _)

theorem flatMap_wordBE4_length (l : List Nat) : (l.flatMap wordBE4).length = 4 * l.length := by
  induction l with
  | nil => rfl
  | cons w t ih => simp [List.flatMap_cons, wordBE4, ih]; omega

/-- A SHA-256 digest has 32 bytes. -/
theorem sha256_length (msg : List Nat) : (sha256 msg).length = 32 := by
  show (((chunks64 (shaPad msg)).foldl compress sha256H0).flatMap wordBE4).length = 32
  rw [flatMap_wordBE4_length, foldl_compress_length _ _ (by rfl)]

/-- Every byte of a SHA-256 digest is below 256. -/
theorem sha256_bytes_lt (msg : List Nat) : ∀ b ∈ sha256 msg, b < 256 := by
  intro b hb
  rw [sha256, List.mem_flatMap] at hb
  rcases hb with ⟨w, _, hw⟩
  simp [wordBE4] at hw
  rcases hw with rfl | rfl | rfl | rfl <;> omega

/-! ## Claim C1 — gate fail-closed behaviour

The claim as frozen is refuted by the code: the handler tests
`bool(body.get("active", False))`, i.e. Python truthiness, so a body whose
`active` entry is a truthy non-boolean (for instance the string `false`)
yields ALLOW even though the field is not `true`.  The amended statement
restricts the `active` condition to an object body whose entry is absent or
falsy; every such input is answered with the 401 DENY. -/

/-- C1 (counterexample): the introspection body whose `active` entry is the
JSON string `false` — a value different from `true` — makes the gate answer
200 ALLOW with identity headers, not the claimed 401 DENY. -/
theorem C1_claim_counterexample :
    (check "Bearer tok" gateCfg1
      (.reply 200 (some (Json.obj [("active", Json.str "false")])))).response =
      .ok ⟨200, "", [("X-Subject", ""), ("X-Scope", ""), ("X-Token-Exp", "")]⟩ ∧
    Json.str "false" ≠ Json.bool true ∧
    jGet [("active", Json.str "false")] "active" = Json.str "false" :=
  ⟨by decide, by simp, rfl⟩

/-- C1 (amended): if the Authorization header is missing or not of the Bearer
scheme, or — with the gate configured — the introspection call raises a
transport error, or the response status is at least 500, or the body is not
parseable, or the body parses to a JSON object whose `active` entry is absent
or Python-falsy, then the gate answers DENY: HTTP 401 with an empty body and
no headers, so no such input produces ALLOW. -/
theorem C1_gate_fail_closed (auth : String) (cfg : GateConfig) (intro : IntroResult)
    (h : bearerOk auth = false ∨ (gateConfigured cfg = true ∧ introDeniable intro)) :
    (check auth cfg intro).response = .ok ⟨401, "", []⟩ := by
  rcases h with hb | ⟨hc, hd⟩
  · simp [check, hb]
  · by_cases hb2 : bearerOk auth
    · rcases hd with rfl | ⟨st, b, rfl, hcase⟩
      · simp [check, hb2, hc]
      · rcases hcase with h5 | rfl | ⟨kvs, rfl, hact⟩
        · simp [check, hb2, hc, h5]
        · by_cases h5 : 500 ≤ st <;> simp [check, hb2, hc, h5]
        · by_cases h5 : 500 ≤ st <;> simp [check, hb2, hc, h5, hact]
    · simp [check, hb2]

/-- C1 (witness): a configured gate given a parseable body with
`active: false` answers 401 with an empty body. -/
theorem C1_gate_fail_closed_witness :
    (check "Bearer t" gateCfg1
      (.reply 200 (some (Json.obj [("active", Json.bool false)])))).response =
      .ok ⟨401, "", []⟩ :=
  C1_gate_fail_closed _ _ _
    (Or.inr ⟨by decide, Or.inr ⟨200, _, rfl, Or.inr (Or.inr ⟨_, rfl, by decide⟩)⟩⟩)

/-! ## Claim C2 — Hop-A failure stops the chain -/

/-- C2: with a well-formed Bearer header and complete configuration, whenever
the Hop-A response (whatever its status) carries no truthy `access_token` —
body unparseable, not an object, without the key, or with an empty value —
the broker answers 401 with an empty body and never issues the Hop-B
request. -/
theorem C2_hopA_without_token_denies (auth : String) (cfg : BrokerConfig)
    (st : Nat) (b : Option Json) (hopB : HopResult)
    (hb : bearerOk auth = true) (hc : brokerConfigured cfg = true)
    (hA : bodyHasToken b = false) :
    (broker auth cfg (.reply st b) hopB).response = ⟨401, "", []⟩ ∧
    (broker auth cfg (.reply st b) hopB).hopBRequest = none := by
  by_cases h5 : 500 ≤ st
  · simp [broker, hb, hc, h5]
  · rcases b with _ | j
    · simp [broker, hb, hc, h5]
    · rcases j with _ | bb | n | s | xs | kvs <;>
        simp [broker, hb, hc, h5]
      simp [bodyHasToken] at hA
      simp [hA]

/-- C2 (witness): a Hop-A reply whose object body lacks `access_token` makes
the configured broker answer 401 without a Hop-B request. -/
theorem C2_hopA_without_token_denies_witness :
    (broker "Bearer t" brokerCfg1 (.reply 200 (some (Json.obj []))) .transportError).response =
      ⟨401, "", []⟩ ∧
    (broker "Bearer t" brokerCfg1 (.reply 200 (some (Json.obj []))) .transportError).hopBRequest =
      none :=
  C2_hopA_without_token_denies "Bearer t" brokerCfg1 200 _ .transportError
    (by decide) (by decide) (by decide)

/-! ## Claim C3 — the callback never validates the state nonce

The claim describes the intended protocol (also demanded by the design notes
of the specification), but the code does not implement it: `do_GET` stores
any received `code` and answers 200 without ever comparing the returned
`state` with the stored nonce, and `login_flow` proceeds to the token
exchange on the presence of `auth_code` alone.  The theorem evaluates the
embedded handler on a callback whose `state` differs from the stored
`random_state` nonce. -/

/-- C3: on the callback `/callback?code=ABC&state=WRONG`, whose `state` value
differs from the stored nonce `random_state` of the authorization request,
the handler still stores the code, answers 200, and the flow proceeds to the
token exchange — the mismatch is never detected. -/
theorem C3_callback_ignores_state :
    (doGET ⟨none⟩ "/callback?code=ABC&state=WRONG").1.authCode = some "ABC" ∧
    (doGET ⟨none⟩ "/callback?code=ABC&state=WRONG").2 = some 200 ∧
    proceedsToExchange (doGET ⟨none⟩ "/callback?code=ABC&state=WRONG").1 = true ∧
    qsGet (parseQS (urlQuery "/callback?code=ABC&state=WRONG")) "state" = some "WRONG" ∧
    List.lookup "state" (authParamsFlow (List.replicate 32 0)) = some "random_state" ∧
    ("WRONG" : String) ≠ "random_state" := by decide

/-! ## Claim C4 — ALLOW propagates the introspection identity fields -/

/-- C4: when the configured gate receives a Bearer header and the
introspection reply has status below 500 and an object body with
`active: true`, a nonempty string `sub`, a string `scope` and a nonzero
integer `exp`, the gate answers 200 with exactly the headers
`X-Subject = sub`, `X-Scope = scope` and `X-Token-Exp = str(exp)`. -/
theorem C4_allow_identity_headers (auth : String) (cfg : GateConfig) (st : Nat)
    (kvs : List (String × Json)) (s sc : String) (e : Int)
    (hb : bearerOk auth = true) (hc : gateConfigured cfg = true) (hst : st < 500)
    (hact : jGetD kvs "active" (Json.bool false) = Json.bool true)
    (hsub : jGet kvs "sub" = Json.str s) (hsne : s ≠ "")
    (hsc : jGet kvs "scope" = Json.str sc)
    (hexp : jGet kvs "exp" = Json.num e) (hene : e ≠ 0) :
    (check auth cfg (.reply st (some (Json.obj kvs)))).response =
      .ok ⟨200, "", [("X-Subject", s), ("X-Scope", sc), ("X-Token-Exp", toString e)]⟩ := by
  have h5 : ¬ 500 ≤ st := by omega
  have hact' : (jGetD kvs "active" (Json.bool false)).truthy = true := by
    rw [hact]; rfl
  have hs' : (s != "") = true := by simp [hsne]
  have he' : (e != 0) = true := by simp [hene]
  simp only [check, hb, hc, h5, hact']
  simp [gateAllow, hsub, hsc, hexp, pyOr, Json.truthy, hs', he', pyStr]
  by_cases hsc0 : sc = "" <;> simp [hsc0]

/-- C4 (witness): the end-to-end scenario of the specification — body
`active: true, sub: alice, scope: hello, exp: 1999999999` — produces 200 with
`X-Subject: alice`, `X-Scope: hello`, `X-Token-Exp: 1999999999`. -/
theorem C4_allow_identity_headers_witness :
    (check "Bearer tok" gateCfg1 (.reply 200 (some (Json.obj
      [("active", Json.bool true), ("sub", Json.str "alice"), ("scope", Json.str "hello"),
       ("exp", Json.num 1999999999)])))).response =
      .ok ⟨200, "",
        [("X-Subject", "alice"), ("X-Scope", "hello"),
         ("X-Token-Exp", toString (1999999999 : Int))]⟩ ∧
    toString (1999999999 : Int) = "1999999999" :=
  ⟨C4_allow_identity_headers "Bearer tok" gateCfg1 200 _ "alice" "hello" 1999999999
    (by decide) (by decide) (by omega) rfl rfl (by decide) rfl rfl (by decide),
   by decide⟩

/-! ## Claim C5 — broker success injects only the domain-B token -/

/-- C5: when both hops answer below 500 with bodies carrying
`access_token: jwtA` and `access_token: finalTok`, the configured broker
answers 200 with an empty body and exactly the headers
`Authorization: Bearer finalTok` and `Cache-Control: no-store`; the Hop-A
token `jwtA` occurs nowhere in that response. -/
theorem C5_broker_success_headers (auth : String) (cfg : BrokerConfig) (stA stB : Nat)
    (hb : bearerOk auth = true) (hc : brokerConfigured cfg = true)
    (hA : stA < 500) (hB : stB < 500) :
    (broker auth cfg
      (.reply stA (some (Json.obj [("access_token", Json.str "jwtA")])))
      (.reply stB (some (Json.obj [("access_token", Json.str "finalTok")])))).response =
      ⟨200, "", [("Authorization", "Bearer finalTok"), ("Cache-Control", "no-store")]⟩ ∧
    respMentions "jwtA"
      ((broker auth cfg
        (.reply stA (some (Json.obj [("access_token", Json.str "jwtA")])))
        (.reply stB (some (Json.obj [("access_token", Json.str "finalTok")])))).response) =
      false := by
  have h1 : ¬ 500 ≤ stA := by omega
  have h2 : ¬ 500 ≤ stB := by omega
  have e : (broker auth cfg
      (.reply stA (some (Json.obj [("access_token", Json.str "jwtA")])))
      (.reply stB (some (Json.obj [("access_token", Json.str "finalTok")])))).response =
      ⟨200, "", [("Authorization", "Bearer finalTok"), ("Cache-Control", "no-store")]⟩ := by
    simp [broker, hb, hc, h1, h2, jGetD, Json.truthy, pyStr]
  exact ⟨e, by rw [e]; decide⟩

/-- C5 (witness): end-to-end scenario 3 of the specification at concrete
statuses 200/200. -/
theorem C5_broker_success_headers_witness :
    (broker "Bearer t" brokerCfg1
      (.reply 200 (some (Json.obj [("access_token", Json.str "jwtA")])))
      (.reply 200 (some (Json.obj [("access_token", Json.str "finalTok")])))).response =
      ⟨200, "", [("Authorization", "Bearer finalTok"), ("Cache-Control", "no-store")]⟩ :=
  (C5_broker_success_headers "Bearer t" brokerCfg1 200 200
    (by decide) (by decide) (by omega) (by omega)).1

/-! ## Claim C6 — Hop-B failure denies without leaking the Hop-A token -/

/-- C6: when Hop A yields a nonempty `access_token` but Hop B fails — by
transport error, a status of at least 500, or a body without a truthy
`access_token` (unparseable bodies included) — the configured broker answers
401 with an empty body and no headers, and the Hop-A token occurs nowhere in
that response. -/
theorem C6_hopB_failure_denies (auth : String) (cfg : BrokerConfig) (stA : Nat)
    (kvsA : List (String × Json)) (jwtA : String) (hopB : HopResult)
    (hb : bearerOk auth = true) (hc : brokerConfigured cfg = true) (hA : stA < 500)
    (htok : jGetD kvsA "access_token" (Json.str "") = Json.str jwtA)
    (hne : jwtA ≠ "") (hbad : hopBad hopB) :
    (broker auth cfg (.reply stA (some (Json.obj kvsA))) hopB).response = ⟨401, "", []⟩ ∧
    respMentions jwtA
      ((broker auth cfg (.reply stA (some (Json.obj kvsA))) hopB).response) = false := by
  have hA' : ¬ 500 ≤ stA := by omega
  have ht : (jGetD kvsA "access_token" (Json.str "")).truthy = true := by
    rw [htok]; simp [Json.truthy, hne]
  have hresp :
      (broker auth cfg (.reply stA (some (Json.obj kvsA))) hopB).response = ⟨401, "", []⟩ := by
    rcases hbad with rfl | ⟨st, b, rfl, hcase⟩
    · simp [broker, hb, hc, hA', ht]
    · rcases hcase with h5 | hNo
      · simp [broker, hb, hc, hA', ht, h5]
      · rcases b with _ | j
        · simp [broker, hb, hc, hA', ht]
        · rcases j with _ | bb | n | s | xs | kvs <;>
            simp [broker, hb, hc, hA', ht] <;>
            simp_all [bodyHasToken]
  refine ⟨hresp, ?_⟩
  rw [hresp]
  have hdata : jwtA.data ≠ [] := by
    intro hd; exact hne (String.ext hd)
  rcases hja : jwtA.data with _ | ⟨c, cs⟩
  · exact absurd hja hdata
  · simp [respMentions, listOccurs, listLeadsWith, hja]

/-- C6 (witness): Hop A yields `jwtA`, Hop B answers 503 — the broker answers
a bare 401 mentioning no token. -/
theorem C6_hopB_failure_denies_witness :
    (broker "Bearer t" brokerCfg1
      (.reply 200 (some (Json.obj [("access_token", Json.str "jwtA")])))
      (.reply 503 (some (Json.obj [("access_token", Json.str "x")])))).response =
      ⟨401, "", []⟩ ∧
    respMentions "jwtA"
      ((broker "Bearer t" brokerCfg1
        (.reply 200 (some (Json.obj [("access_token", Json.str "jwtA")])))
        (.reply 503 (some (Json.obj [("access_token", Json.str "x")])))).response) = false :=
  C6_hopB_failure_denies "Bearer t" brokerCfg1 200 _ "jwtA" _
    (by decide) (by decide) (by omega) rfl (by decide)
    (Or.inr ⟨503, _, rfl, Or.inl (by omega)⟩)

/-! ## Claim C7 — PKCE generation

The verifier is a pure function of the 32 bytes drawn from
`secrets.token_bytes(32)` — 256 bits of entropy; the quality of the random
source is outside a shallow embedding, while every functional clause of the
claim is settled below for all possible byte draws. -/

/-- C7: for every 32-byte random draw, the verifier is the unpadded base64url
encoding of the bytes, the challenge is the unpadded base64url encoding of
the SHA-256 digest of the UTF-8 verifier, the advertised method is S256, both
strings have exactly 43 characters (hence at least 43), and every verifier
character is drawn from the base64url alphabet with no padding sign. -/
theorem C7_pkce_generation (bs : List Nat) (hlen : bs.length = 32)
    (hbyte : ∀ b ∈ bs, b < 256) :
    pkceVerifier bs = String.mk (b64NoPadCore urlAlpha bs) ∧
    pkceChallenge bs =
      String.mk (b64NoPadCore urlAlpha (sha256 (utf8Bytes (pkceVerifier bs)))) ∧
    List.lookup "code_challenge_method" (authParamsFlow bs) = some "S256" ∧
    (pkceVerifier bs).length = 43 ∧
    (pkceChallenge bs).length = 43 ∧
    ∀ c ∈ (pkceVerifier bs).data, c ∈ urlAlpha ∧ c ≠ '=' := by
  have hv : pkceVerifier bs = String.mk (b64NoPadCore urlAlpha bs) :=
    rstrip_noPad urlAlpha (by decide) (by decide) bs hbyte
  have hch : pkceChallenge bs =
      String.mk (b64NoPadCore urlAlpha (sha256 (utf8Bytes (pkceVerifier bs)))) :=
    rstrip_noPad urlAlpha (by decide) (by decide) _ (sha256_bytes_lt _)
  refine ⟨hv, hch, by rfl, ?_, ?_, ?_⟩
  · rw [hv]
    show (b64NoPadCore urlAlpha bs).length = 43
    rw [noPad_length, hlen]
  · rw [hch]
    show (b64NoPadCore urlAlpha (sha256 (utf8Bytes (pkceVerifier bs)))).length = 43
    rw [noPad_length, sha256_length]
  · rw [hv]
    intro c hcm
    have hmem : c ∈ b64NoPadCore urlAlpha bs := hcm
    refine ⟨noPad_charset urlAlpha (by decide) bs hbyte c hmem, fun h => ?_⟩
    subst h
    exact absurd (noPad_charset urlAlpha (by decide) bs hbyte _ hmem) (by decide)

/-- C7 (witness): at the zero draw the verifier is the 43-character string of
letters A and the challenge has 43 characters as well. -/
theorem C7_pkce_generation_witness :
    pkceVerifier (List.replicate 32 0) = "AAAAAAAAAAAAAAAAAAAAAAAAAAAAAAAAAAAAAAAAAAA" ∧
    (pkceVerifier (List.replicate 32 0)).length = 43 ∧
    (pkceChallenge (List.replicate 32 0)).length = 43 ∧
    List.lookup "code_challenge_method" (authParamsFlow (List.replicate 32 0)) = some "S256" :=
  ⟨by decide,
   (C7_pkce_generation (List.replicate 32 0) (by decide) (by decide)).2.2.2.1,
   (C7_pkce_generation (List.replicate 32 0) (by decide) (by decide)).2.2.2.2.1,
   (C7_pkce_generation (List.replicate 32 0) (by decide) (by decide)).2.2.1⟩

/-! ## Claim C8 — missing configuration answers 500, not 401 -/

/-- C8: with a well-formed Bearer header, an empty introspection URL, client
id or client secret makes the gate answer 500 with the body `misconfigured`,
and an empty value among the six required broker values does the same for the
broker; this response differs from the 401 DENY with empty body. -/
theorem C8_misconfigured_distinct :
    (∀ auth cfg intro, bearerOk auth = true →
      (cfg.introspectUrl = "" ∨ cfg.clientId = "" ∨ cfg.clientSecret = "") →
      (check auth cfg intro).response = .ok ⟨500, "misconfigured", []⟩) ∧
    (∀ auth cfg hopA hopB, bearerOk auth = true →
      (cfg.aTokenUrl = "" ∨ cfg.aClientId = "" ∨ cfg.aClientSecret = "" ∨
       cfg.bTokenUrl = "" ∨ cfg.bClientId = "" ∨ cfg.bClientSecret = "") →
      (broker auth cfg hopA hopB).response = ⟨500, "misconfigured", []⟩) ∧
    HttpResponse.mk 500 "misconfigured" [] ≠ HttpResponse.mk 401 "" [] := by
  refine ⟨?_, ?_, by decide⟩
  · intro auth cfg intro hb hcfg
    have hc : gateConfigured cfg = false := by
      rcases hcfg with h | h | h <;> simp [gateConfigured, h]
    simp [check, hb, hc]
  · intro auth cfg hopA hopB hb hcfg
    have hc : brokerConfigured cfg = false := by
      rcases hcfg with h | h | h | h | h | h <;> simp [brokerConfigured, h]
    simp [broker, hb, hc]

/-- C8 (witness): a gate without introspection URL and a broker without
domain-A client id both answer the 500 misconfigured signal. -/
theorem C8_misconfigured_distinct_witness :
    (check "Bearer x" ⟨"", "gateway", "gw-secret"⟩ .transportError).response =
      .ok ⟨500, "misconfigured", []⟩ ∧
    (broker "Bearer x"
      ⟨"http://kc-a/token", "", "sec-a", "", "http://kc-b/token", "broker-b", "sec-b", ""⟩
      .transportError .transportError).response = ⟨500, "misconfigured", []⟩ :=
  ⟨C8_misconfigured_distinct.1 "Bearer x" ⟨"", "gateway", "gw-secret"⟩ .transportError
     (by decide) (Or.inl rfl),
   C8_misconfigured_distinct.2.1 "Bearer x"
     ⟨"http://kc-a/token", "", "sec-a", "", "http://kc-b/token", "broker-b", "sec-b", ""⟩
     .transportError .transportError (by decide) (Or.inr (Or.inl rfl))⟩

/-! ## Claim C9 — the two Hop-B client-authentication shapes -/

/-- C9: whenever the broker reaches Hop B, the issued request is
`hopBRequestOf` applied to the configuration and the Hop-A token, and that
request has exactly one of two shapes selected by `KC_B_CLIENT_AUTH`: for
`client_secret_basic` it carries the Basic Authorization header and its form
holds no `client_id` or `client_secret` field, and for every other value it
carries no Authorization header while the form holds both credential
fields. -/
theorem C9_hopB_client_auth_shapes (auth : String) (cfg : BrokerConfig) (stA : Nat)
    (kvsA : List (String × Json)) (hopB : HopResult)
    (hb : bearerOk auth = true) (hc : brokerConfigured cfg = true) (hA : stA < 500)
    (ht : (jGetD kvsA "access_token" (Json.str "")).truthy = true) :
    (broker auth cfg (.reply stA (some (Json.obj kvsA))) hopB).hopBRequest =
      some (hopBRequestOf cfg (jGetD kvsA "access_token" (Json.str ""))) ∧
    (cfg.bClientAuth = "client_secret_basic" →
      (hopBRequestOf cfg (jGetD kvsA "access_token" (Json.str ""))).headers =
        [("Authorization", basicAuthHeader cfg.bClientId cfg.bClientSecret),
         ("Content-Type", "application/x-www-form-urlencoded")] ∧
      formGet (hopBRequestOf cfg (jGetD kvsA "access_token" (Json.str ""))).form
        "client_id" = none ∧
      formGet (hopBRequestOf cfg (jGetD kvsA "access_token" (Json.str ""))).form
        "client_secret" = none) ∧
    (cfg.bClientAuth ≠ "client_secret_basic" →
      (hopBRequestOf cfg (jGetD kvsA "access_token" (Json.str ""))).headers =
        [("Content-Type", "application/x-www-form-urlencoded")] ∧
      formGet (hopBRequestOf cfg (jGetD kvsA "access_token" (Json.str ""))).form
        "client_id" = some (Json.str cfg.bClientId) ∧
      formGet (hopBRequestOf cfg (jGetD kvsA "access_token" (Json.str ""))).form
        "client_secret" = some (Json.str cfg.bClientSecret)) := by
  have hA' : ¬ 500 ≤ stA := by omega
  refine ⟨?_, ?_, ?_⟩
  · rcases hopB with _ | ⟨stB, bodyB⟩
    · simp [broker, hb, hc, hA', ht]
    · by_cases h5 : 500 ≤ stB
      · simp [broker, hb, hc, hA', ht, h5]
      · rcases bodyB with _ | j
        · simp [broker, hb, hc, hA', ht, h5]
        · rcases j with _ | bb | n | s | xs | kvs <;>
            simp [broker, hb, hc, hA', ht, h5] <;> split <;> simp
  · intro h
    simp [hopBRequestOf, h, formGet, clientAuthFields]
  · intro h
    simp [hopBRequestOf, h, formGet, clientAuthFields]

/-- C9 (witness): under the Basic configuration the Hop-B form holds no
credential field, and under the post configuration it holds the domain-B
client id with no Authorization header. -/
theorem C9_hopB_client_auth_shapes_witness :
    (broker "Bearer t" brokerCfg1
      (.reply 200 (some (Json.obj [("access_token", Json.str "jwtA")])))
      .transportError).hopBRequest =
      some (hopBRequestOf brokerCfg1
        (jGetD [("access_token", Json.str "jwtA")] "access_token" (Json.str ""))) ∧
    formGet (hopBRequestOf brokerCfg1
      (jGetD [("access_token", Json.str "jwtA")] "access_token" (Json.str ""))).form
      "client_id" = none ∧
    formGet (hopBRequestOf brokerCfg2
      (jGetD [("access_token", Json.str "jwtA")] "access_token" (Json.str ""))).form
      "client_id" = some (Json.str "broker-b") ∧
    (hopBRequestOf brokerCfg2
      (jGetD [("access_token", Json.str "jwtA")] "access_token" (Json.str ""))).headers =
      [("Content-Type", "application/x-www-form-urlencoded")] :=
  ⟨(C9_hopB_client_auth_shapes "Bearer t" brokerCfg1 200 _ .transportError
      (by decide) (by decide) (by omega) (by decide)).1,
   ((C9_hopB_client_auth_shapes "Bearer t" brokerCfg1 200 _ .transportError
      (by decide) (by decide) (by omega) (by decide)).2.1 rfl).2.1,
   ((C9_hopB_client_auth_shapes "Bearer t" brokerCfg2 200 _ .transportError
      (by decide) (by decide) (by omega) (by decide)).2.2 (by decide)).2.1,
   ((C9_hopB_client_auth_shapes "Bearer t" brokerCfg2 200 _ .transportError
      (by decide) (by decide) (by omega) (by decide)).2.2 (by decide)).1⟩

/-! ## Claim C10 — Bearer matching and token extraction

The claim as frozen is refuted at its last clause: the handlers require the
seven-character prefix `bearer ` after lowercasing, so the scheme must be
followed by a literal space — a header such as `Bearer` followed by a tab,
which is the scheme followed by only whitespace, is rejected at the header
check instead of being accepted with an empty token.  The amended statement
requires a space after the scheme; the case-insensitive matching and the
strip-after-first-space extraction hold as claimed. -/

/-- C10 (counterexample): the header `Bearer` followed by a tab consists of
the scheme followed by only whitespace, yet the configured gate rejects it at
the header check — no introspection request is issued and the answer is the
401 DENY, where the claim demands acceptance with an empty token. -/
theorem C10_claim_counterexample :
    wsOnly "\t" = true ∧
    (check "Bearer\t" gateCfg1
      (.reply 200 (some (Json.obj [("active", Json.bool true)])))).introRequest = none ∧
    (check "Bearer\t" gateCfg1
      (.reply 200 (some (Json.obj [("active", Json.bool true)])))).response =
      .ok ⟨401, "", []⟩ := by decide

/-- C10 (amended): the Bearer scheme is matched case-insensitively with a
mandatory following space (`bearer x`, `Bearer x` and `BEARER x` are all
accepted); whenever the check passes, the token the gate forwards to
introspection and the broker forwards to Hop A is the substring after the
first space with surrounding whitespace stripped; and a header of the scheme,
a space, then only whitespace passes the check and yields the empty token. -/
theorem C10_bearer_parsing :
    (∀ rest : String,
      bearerOk ("bearer " ++ rest) = true ∧ bearerOk ("Bearer " ++ rest) = true ∧
      bearerOk ("BEARER " ++ rest) = true) ∧
    (∀ auth cfg intro, bearerOk auth = true → gateConfigured cfg = true →
      (check auth cfg intro).introRequest =
        some ⟨[("Authorization", basicAuthHeader cfg.clientId cfg.clientSecret),
               ("Content-Type", "application/x-www-form-urlencoded")],
              [("token", pyStrip (afterFirstSpace auth)),
               ("token_type_hint", "access_token")]⟩) ∧
    (∀ auth cfg hopA hopB, bearerOk auth = true → brokerConfigured cfg = true →
      (broker auth cfg hopA hopB).hopARequest =
        some (hopARequestOf cfg (pyStrip (afterFirstSpace auth)))) ∧
    (∀ ws : String, wsOnly ws = true →
      bearerOk ("Bearer " ++ ws) = true ∧
      pyStrip (afterFirstSpace ("Bearer " ++ ws)) = "") := by
  refine ⟨?_, gate_introRequest, broker_hopARequest, ?_⟩
  · intro rest
    exact ⟨bearerOk_concat _ _ (by decide), bearerOk_concat _ _ (by decide),
           bearerOk_concat _ _ (by decide)⟩
  · intro ws hws
    refine ⟨bearerOk_concat _ _ (by decide), ?_⟩
    rw [afterFirstSpace_bearer]
    exact pyStrip_ws ws (Bool.and_elim_right hws)

/-- C10 (witness): the header `BEARER  x ` is accepted and the forwarded
token is `x`; a space followed by a tab after the scheme is accepted with the
empty token. -/
theorem C10_bearer_parsing_witness :
    pyStrip (afterFirstSpace "BEARER  x ") = "x" ∧
    (check "BEARER  x " gateCfg1 .transportError).introRequest =
      some ⟨[("Authorization", basicAuthHeader gateCfg1.clientId gateCfg1.clientSecret),
             ("Content-Type", "application/x-www-form-urlencoded")],
            [("token", pyStrip (afterFirstSpace "BEARER  x ")),
             ("token_type_hint", "access_token")]⟩ ∧
    wsOnly "\t " = true ∧
    pyStrip (afterFirstSpace ("Bearer " ++ "\t ")) = "" :=
  ⟨by decide,
   C10_bearer_parsing.2.1 "BEARER  x " gateCfg1 .transportError (by decide) (by decide),
   by decide,
   (C10_bearer_parsing.2.2.2 "\t " (by decide)).2⟩

end OssAuthz
